import Mathlib

/-!
Verification of the synchronized dual-viewport renderer of the
gemini-react-app repository. The definitions below are a shallow embedding
of the `SplitViewer` component and its `types.ts` data model: JavaScript
numbers are modelled as rationals, strings as Lean strings with an explicit
UTF-16 length function, and the React state updates as an explicit step
function on a state record driven by a list of UI events.
-/

namespace GeminiReact

/-- Pan/zoom state of the split viewer, mirroring the `ViewState` interface
of `types.ts`: `scale` is the zoom factor, `x`/`y` the pan offsets in pixels. -/
structure ViewState where
  scale : ℚ
  x : ℚ
  y : ℚ
deriving DecidableEq, Repr

/-- A detected text region, mirroring the `TranslationItem` interface of
`types.ts`: original and translated text plus `box_2d` as the tuple
(ymin, xmin, ymax, xmax) on the normalized 0-1000 grid. -/
structure TranslationItem where
  originalText : String
  translatedText : String
  box_2d : ℚ × ℚ × ℚ × ℚ
deriving DecidableEq, Repr

/-- Intrinsic image dimensions, mirroring the `imageDims` state of
`SplitViewer` (`w`/`h` as `naturalWidth`/`naturalHeight`; the stored ratio
is `w / h` and is recomputed where needed). -/
structure ImageDims where
  w : ℚ
  h : ℚ
deriving DecidableEq, Repr

/-- Length of a string in UTF-16 code units, the semantics of the
JavaScript `String.length` used at `item.translatedText.length`:
code points at or above U+10000 count as a surrogate pair (two units). -/
def utf16Length (s : String) : Nat :=
  (s.data.map fun c => if c.toNat ≥ 0x10000 then 2 else 1).sum

/-- The `textLen` computation of `renderImageContent`
(`item.translatedText.length || 1`): a zero length falls back to 1. -/
def jsTextLen (s : String) : Nat :=
  if utf16Length s = 0 then 1 else utf16Length s

/-- The style computed for one region overlay in `renderImageContent`
lines 117-157: placement percentages, orientation flag, the text length
feeding the font-size expression, line height and background opacity. -/
structure OverlayStyle where
  top : ℚ
  left : ℚ
  width : ℚ
  height : ℚ
  isVertical : Bool
  textLen : Nat
  lineHeight : ℚ
  backgroundOpacity : ℚ
deriving DecidableEq, Repr

/-- Embedding of the per-region overlay computation of
`renderImageContent`: destructures `box_2d`, divides by 10 for placement
percentages, classifies vertical text by `(ymax - ymin) > (xmax - xmin) * 1.3`,
and records the length fallback and the line heights 1.1 / 1. -/
def overlayStyle (overlayOpacity : ℚ) (item : TranslationItem) : OverlayStyle :=
  let (ymin, xmin, ymax, xmax) := item.box_2d
  let isVertical := decide ((ymax - ymin) > (xmax - xmin) * (13 / 10))
  { top := ymin / 10
    left := xmin / 10
    width := (xmax - xmin) / 10
    height := (ymax - ymin) / 10
    isVertical := isVertical
    textLen := jsTextLen item.translatedText
    lineHeight := if isVertical then 11 / 10 else 1
    backgroundOpacity := overlayOpacity }

/-- Evaluation of the CSS font-size expression of `renderImageContent`
(`min(85cqw, (95/textLen)cqh)` for vertical, `min(85cqh, (95/textLen)cqw)`
for horizontal) at concrete container-query unit sizes: `cqw` is 1% of the
overlay box's width, `cqh` is 1% of its height. -/
def fontSizeOf (st : OverlayStyle) (cqw cqh : ℚ) : ℚ :=
  if st.isVertical then min (85 * cqw) ((95 / (st.textLen : ℚ)) * cqh)
  else min (85 * cqh) ((95 / (st.textLen : ℚ)) * cqw)

/-- Font size as the specification's §4.2 words it, for comparison with the
code-derived `fontSizeOf`: `len = max(1, text.length)`, horizontal text uses
`min(85% of box-height-unit, (95/len)% of box-width-unit)` and vertical text
swaps the width/height roles. -/
def specFontSize (isVertical : Bool) (rawLen : Nat) (cqw cqh : ℚ) : ℚ :=
  let len : ℚ := ((max 1 rawLen : Nat) : ℚ)
  if isVertical then min (85 * cqw) ((95 / len) * cqh)
  else min (85 * cqh) ((95 / len) * cqw)

/-- Mutable component state of `SplitViewer`: the shared view transform,
the drag flag, the drag anchor `lastPosition`, and the overlay opacity. -/
structure SplitState where
  viewState : ViewState
  isDragging : Bool
  lastPosition : ℚ × ℚ
  overlayOpacity : ℚ
deriving DecidableEq, Repr

/-- UI events handled by `SplitViewer`: wheel zoom, pointer down/move/up
(mouse and touch identically), the ± zoom buttons, the reset button and
the opacity slider (slider value 20-100). -/
inductive ViewerEvent where
  | wheel (deltaY : ℚ)
  | pointerDown (cx cy : ℚ)
  | pointerMove (cx cy : ℚ)
  | pointerUp
  | zoomInButton
  | zoomOutButton
  | resetButton
  | opacityInput (v : ℚ)
deriving DecidableEq, Repr

/-- Initial component state: `viewState = {x:0, y:0, scale:1}`,
not dragging, `lastPosition = {x:0, y:0}`, `overlayOpacity = 0.8`. -/
def initialState : SplitState :=
  { viewState := ⟨1, 0, 0⟩
    isDragging := false
    lastPosition := (0, 0)
    overlayOpacity := 8 / 10 }

/-- One event-handler step of `SplitViewer`, combining `handleWheel`
(`newScale = min(max(0.5, scale + -deltaY*0.002), 8)`), `handleMouseDown`
(set dragging, record anchor), `handleMouseMove` (early return unless
dragging, else add the anchor-to-pointer delta to the pan and move the
anchor), `handleMouseUp` (clear dragging), the − button
(`max(0.5, scale - 0.25)`), the + button (`min(8, scale + 0.25)`),
`resetView`, and the opacity slider (`value / 100`). -/
def step (st : SplitState) : ViewerEvent → SplitState
  | .wheel deltaY =>
      { st with viewState :=
          { st.viewState with
            scale := min (max (1 / 2) (st.viewState.scale + -deltaY * (1 / 500))) 8 } }
  | .pointerDown cx cy =>
      { st with isDragging := true, lastPosition := (cx, cy) }
  | .pointerMove cx cy =>
      if st.isDragging then
        { st with
          lastPosition := (cx, cy)
          viewState :=
            { st.viewState with
              x := st.viewState.x + (cx - st.lastPosition.1)
              y := st.viewState.y + (cy - st.lastPosition.2) } }
      else st
  | .pointerUp =>
      { st with isDragging := false }
  | .zoomInButton =>
      { st with viewState :=
          { st.viewState with scale := min 8 (st.viewState.scale + 1 / 4) } }
  | .zoomOutButton =>
      { st with viewState :=
          { st.viewState with scale := max (1 / 2) (st.viewState.scale - 1 / 4) } }
  | .resetButton =>
      { st with viewState := ⟨1, 0, 0⟩ }
  | .opacityInput v =>
      { st with overlayOpacity := v / 100 }

/-- Run a sequence of UI events from a state. -/
def run (st : SplitState) (es : List ViewerEvent) : SplitState :=
  es.foldl step st

/-- The two panes of the split view. -/
inductive PaneMode where
  | original
  | translated
deriving DecidableEq, Repr

/-- What one pane renders: the applied transform, whether the CSS
transition is disabled (it is while dragging), the aspect value of the
aspect-locked wrapper, and the list of overlay styles. -/
structure RenderedPane where
  transform : ViewState
  transitionDisabled : Bool
  aspect : ℚ
  overlays : List OverlayStyle
deriving DecidableEq, Repr

/-- Embedding of `renderImageContent`: returns nothing until the image
dimensions are known; otherwise both panes get the one shared transform
and aspect-locked wrapper, and only the translated pane maps the
translations through `overlayStyle`. -/
def renderImageContent (imageDims : Option ImageDims)
    (translations : List TranslationItem) (st : SplitState)
    (mode : PaneMode) : Option RenderedPane :=
  match imageDims with
  | none => none
  | some dims =>
      some
        { transform := st.viewState
          transitionDisabled := st.isDragging
          aspect := dims.w / dims.h
          overlays :=
            if mode = PaneMode.translated then
              translations.map (overlayStyle st.overlayOpacity)
            else [] }

/-- State of the image-load effect of `SplitViewer`: the current image
source and the last stored dimensions. -/
structure ImgLoadState where
  currentSource : String
  imageDims : Option ImageDims
deriving DecidableEq, Repr

/-- Events at the image-load boundary: the `imageData` prop changes, or a
previously started load completes with the dimensions of its source. -/
inductive ImgEvent where
  | setSource (src : String)
  | loadComplete (src : String) (w h : ℚ)
deriving DecidableEq, Repr

/-- Image-load dynamics as implemented in `SplitViewer` lines 20-30: a
source change swaps the current source (the pending load is not cancelled
and the stored dimensions are not cleared), and a load completion stores
the completed load's dimensions unconditionally — the `onload` callback
performs no source-identity check. -/
def imgStep (st : ImgLoadState) : ImgEvent → ImgLoadState
  | .setSource src => { st with currentSource := src }
  | .loadComplete _ w h => { st with imageDims := some ⟨w, h⟩ }

/-- Run a sequence of image-load events from a state. -/
def imgRun (st : ImgLoadState) (es : List ImgEvent) : ImgLoadState :=
  es.foldl imgStep st

/-- The `textLen` fallback of the code agrees with the spec's
`max(1, length)`. -/
theorem jsTextLen_eq_max (s : String) : jsTextLen s = max 1 (utf16Length s) := by
  unfold jsTextLen
  split <;> omega

/-- C1: for every image, region list, opacity and every sequence of
pan/zoom/reset operations, the transform applied to the original pane and
the transform applied to the translated pane in the same render are the
identical `ViewTransform` value: the two panes never diverge in pan or zoom. -/
theorem c1_transform_sync (imageDims : Option ImageDims)
    (translations : List TranslationItem) (es : List ViewerEvent) :
    (renderImageContent imageDims translations (run initialState es)
        PaneMode.original).map RenderedPane.transform =
    (renderImageContent imageDims translations (run initialState es)
        PaneMode.translated).map RenderedPane.transform := by
  cases imageDims <;> rfl

/-- C2: for every region box (ymin, xmin, ymax, xmax) on the 0-1000 grid,
the overlay placement in percent of the aspect-locked wrapper is
top = ymin/10, left = xmin/10, width = (xmax-xmin)/10,
height = (ymax-ymin)/10; in particular box (100, 200, 300, 600) yields
top = 10%, left = 20%, width = 40%, height = 20%. -/
theorem c2_placement :
    (∀ (o : ℚ) (oT tT : String) (ymin xmin ymax xmax : ℚ),
      (overlayStyle o ⟨oT, tT, (ymin, xmin, ymax, xmax)⟩).top = ymin / 10 ∧
      (overlayStyle o ⟨oT, tT, (ymin, xmin, ymax, xmax)⟩).left = xmin / 10 ∧
      (overlayStyle o ⟨oT, tT, (ymin, xmin, ymax, xmax)⟩).width = (xmax - xmin) / 10 ∧
      (overlayStyle o ⟨oT, tT, (ymin, xmin, ymax, xmax)⟩).height = (ymax - ymin) / 10) ∧
    ((overlayStyle (8 / 10) ⟨"", "", (100, 200, 300, 600)⟩).top = 10 ∧
     (overlayStyle (8 / 10) ⟨"", "", (100, 200, 300, 600)⟩).left = 20 ∧
     (overlayStyle (8 / 10) ⟨"", "", (100, 200, 300, 600)⟩).width = 40 ∧
     (overlayStyle (8 / 10) ⟨"", "", (100, 200, 300, 600)⟩).height = 20) := by
  refine ⟨fun o oT tT ymin xmin ymax xmax => ⟨rfl, rfl, rfl, rfl⟩, ?_, ?_, ?_, ?_⟩
  · show (100 : ℚ) / 10 = 10
    norm_num
  · show (200 : ℚ) / 10 = 20
    norm_num
  · show ((600 : ℚ) - 200) / 10 = 40
    norm_num
  · show ((300 : ℚ) - 100) / 10 = 20
    norm_num

/-- C3: a region is classified vertical iff
(ymax - ymin) > 1.3 × (xmax - xmin), with strict inequality: the box with
ymax-ymin = 130 and xmax-xmin = 100 is horizontal, and with
ymax-ymin = 131 it is vertical. -/
theorem c3_vertical_classification :
    (∀ (o : ℚ) (oT tT : String) (ymin xmin ymax xmax : ℚ),
      ((overlayStyle o ⟨oT, tT, (ymin, xmin, ymax, xmax)⟩).isVertical = true ↔
        ymax - ymin > (13 / 10) * (xmax - xmin))) ∧
    (overlayStyle (8 / 10) ⟨"", "", (0, 0, 130, 100)⟩).isVertical = false ∧
    (overlayStyle (8 / 10) ⟨"", "", (0, 0, 131, 100)⟩).isVertical = true := by
  refine ⟨fun o oT tT ymin xmin ymax xmax => ?_, ?_, ?_⟩
  · simp only [overlayStyle, decide_eq_true_eq]
    rw [mul_comm]
  · show decide ((130 : ℚ) - 0 > ((100 : ℚ) - 0) * (13 / 10)) = false
    exact decide_eq_false (by norm_num)
  · show decide ((131 : ℚ) - 0 > ((100 : ℚ) - 0) * (13 / 10)) = true
    exact decide_eq_true (by norm_num)

/-- C4: for every region, with len = max(1, translatedText.length), the
font size is min(85% of box-height-unit, (95/len)% of box-width-unit) for
horizontal text and min(85% of box-width-unit, (95/len)% of
box-height-unit) for vertical text, and the line height is 1.1 for
vertical and 1.0 for horizontal text. -/
theorem c4_font_size (o : ℚ) (item : TranslationItem) (cqw cqh : ℚ) :
    fontSizeOf (overlayStyle o item) cqw cqh =
      specFontSize (overlayStyle o item).isVertical
        (utf16Length item.translatedText) cqw cqh ∧
    (overlayStyle o item).lineHeight =
      (if (overlayStyle o item).isVertical then 11 / 10 else 1) := by
  obtain ⟨oT, tT, ⟨ymin, xmin, ymax, xmax⟩⟩ := item
  refine ⟨?_, rfl⟩
  simp only [fontSizeOf, specFontSize, overlayStyle, jsTextLen_eq_max]

/-- C5: from any starting scale in [0.5, 8.0], a wheel event with any
deltaY yields scale = clamp(scale + (-deltaY × 0.002), 0.5, 8.0), and each
± stepper press yields the same value as clamp(scale ± 0.25, 0.5, 8.0);
in all three cases the resulting scale lies in [0.5, 8.0]. -/
theorem c5_scale_clamp (st : SplitState) (deltaY : ℚ)
    (h1 : 1 / 2 ≤ st.viewState.scale) (h2 : st.viewState.scale ≤ 8) :
    ((step st (ViewerEvent.wheel deltaY)).viewState.scale =
        min (max (1 / 2) (st.viewState.scale + -deltaY * (1 / 500))) 8 ∧
      1 / 2 ≤ (step st (ViewerEvent.wheel deltaY)).viewState.scale ∧
      (step st (ViewerEvent.wheel deltaY)).viewState.scale ≤ 8) ∧
    ((step st ViewerEvent.zoomInButton).viewState.scale =
        min (max (1 / 2) (st.viewState.scale + 1 / 4)) 8 ∧
      1 / 2 ≤ (step st ViewerEvent.zoomInButton).viewState.scale ∧
      (step st ViewerEvent.zoomInButton).viewState.scale ≤ 8) ∧
    ((step st ViewerEvent.zoomOutButton).viewState.scale =
        min (max (1 / 2) (st.viewState.scale - 1 / 4)) 8 ∧
      1 / 2 ≤ (step st ViewerEvent.zoomOutButton).viewState.scale ∧
      (step st ViewerEvent.zoomOutButton).viewState.scale ≤ 8) := by
  have hA : (1 : ℚ) / 2 ≤ st.viewState.scale + 1 / 4 := by linarith
  have hB : max (1 / 2 : ℚ) (st.viewState.scale - 1 / 4) ≤ 8 :=
    max_le (by norm_num) (by linarith)
  refine ⟨⟨rfl, ?_, ?_⟩, ⟨?_, ?_, ?_⟩, ⟨?_, ?_, ?_⟩⟩
  · exact le_min (le_max_left _ _) (by norm_num)
  · exact min_le_right _ _
  · show min 8 (st.viewState.scale + 1 / 4) =
      min (max (1 / 2) (st.viewState.scale + 1 / 4)) 8
    rw [max_eq_right hA, min_comm]
  · exact le_min (by norm_num) hA
  · exact min_le_left _ _
  · show max (1 / 2) (st.viewState.scale - 1 / 4) =
      min (max (1 / 2) (st.viewState.scale - 1 / 4)) 8
    exact (min_eq_left hB).symm
  · exact le_max_left _ _
  · exact hB

/-- C5 witness: the wheel theorem instantiated at the initial state
(scale 1) with a large positive deltaY. -/
theorem c5_scale_clamp_witness :
    1 / 2 ≤ (step initialState (ViewerEvent.wheel 5000)).viewState.scale ∧
    (step initialState (ViewerEvent.wheel 5000)).viewState.scale ≤ 8 :=
  ⟨(c5_scale_clamp initialState 5000 (by norm_num [initialState])
      (by norm_num [initialState])).1.2.1,
   (c5_scale_clamp initialState 5000 (by norm_num [initialState])
      (by norm_num [initialState])).1.2.2⟩

/-- C6 counterexample: for the inverted box (300, 200, 100, 600) the code
computes height = (100 - 300)/10 = −20, whereas the claimed clamping
(ymax = max(ymax, ymin+1)) would make the height (301 − 300)/10 = 1/10:
the renderer does not clamp malformed boxes. -/
theorem c6_no_clamping_counterexample :
    (overlayStyle (8 / 10) ⟨"x", "y", (300, 200, 100, 600)⟩).height = -20 ∧
    ((-20 : ℚ) ≠ ((max 100 (300 + 1) : ℚ) - 300) / 10) := by
  constructor
  · show ((100 : ℚ) - 300) / 10 = -20
    norm_num
  · rw [show ((max 100 (300 + 1) : ℚ)) = 300 + 1 from max_eq_right (by norm_num)]
    norm_num

/-- C6 amended: for every region box, well-formed or not, the renderer
applies the same division-by-10 placement formulas without any clamping
(so width or height may be zero or negative), the computation is total
(never throws), and the translated pane still renders one overlay per
region, so a malformed region does not blank the viewer. -/
theorem c6_malformed_box_passthrough :
    (∀ (o : ℚ) (oT tT : String) (ymin xmin ymax xmax : ℚ),
      (overlayStyle o ⟨oT, tT, (ymin, xmin, ymax, xmax)⟩).top = ymin / 10 ∧
      (overlayStyle o ⟨oT, tT, (ymin, xmin, ymax, xmax)⟩).left = xmin / 10 ∧
      (overlayStyle o ⟨oT, tT, (ymin, xmin, ymax, xmax)⟩).width = (xmax - xmin) / 10 ∧
      (overlayStyle o ⟨oT, tT, (ymin, xmin, ymax, xmax)⟩).height = (ymax - ymin) / 10) ∧
    (∀ (dims : ImageDims) (translations : List TranslationItem) (st : SplitState),
      (renderImageContent (some dims) translations st PaneMode.translated).map
          (fun p => p.overlays.length) = some translations.length) := by
  refine ⟨fun o oT tT ymin xmin ymax xmax => ⟨rfl, rfl, rfl, rfl⟩,
    fun dims translations st => ?_⟩
  simp [renderImageContent]

/-- C7: while dragging, each pointer move adds the delta from the last
recorded pointer position to the current one onto the pan and updates the
anchor to the current position; the pointer sequence
(0,0)→(10,5)→(10,5)→(20,5) with a duplicate point yields total pan delta
(20, 5). -/
theorem c7_drag_accumulation :
    (∀ (st : SplitState) (cx cy : ℚ),
      step { st with isDragging := true } (ViewerEvent.pointerMove cx cy) =
        { st with
          isDragging := true
          lastPosition := (cx, cy)
          viewState :=
            { st.viewState with
              x := st.viewState.x + (cx - st.lastPosition.1)
              y := st.viewState.y + (cy - st.lastPosition.2) } }) ∧
    (∀ st : SplitState,
      (run st [ViewerEvent.pointerDown 0 0, ViewerEvent.pointerMove 10 5,
          ViewerEvent.pointerMove 10 5, ViewerEvent.pointerMove 20 5]).viewState.x =
        st.viewState.x + 20 ∧
      (run st [ViewerEvent.pointerDown 0 0, ViewerEvent.pointerMove 10 5,
          ViewerEvent.pointerMove 10 5, ViewerEvent.pointerMove 20 5]).viewState.y =
        st.viewState.y + 5) := by
  refine ⟨fun st cx cy => rfl, fun st => ?_⟩
  constructor
  · show st.viewState.x + ((10 : ℚ) - 0) + (10 - 10) + (20 - 10) =
      st.viewState.x + 20
    ring
  · show st.viewState.y + ((5 : ℚ) - 0) + (5 - 5) + (5 - 5) =
      st.viewState.y + 5
    ring

/-- C8 counterexample: the translated text "嗨" is a single BMP code point,
so its UTF-16 length is 1 (not 2 as the claim states); for the region
box (0, 0, 500, 1000) the computed font size at unit-sized box units is
min(85, 95/1) = 85, not the claimed min(85, 47.5) = 47.5. -/
theorem c8_length_counterexample :
    utf16Length "嗨" = 1 ∧
    fontSizeOf (overlayStyle (8 / 10) ⟨"hi", "嗨", (0, 0, 500, 1000)⟩) 1 1 = 85 ∧
    min (85 : ℚ) ((95 : ℚ) / 2) = 95 / 2 ∧ (85 : ℚ) ≠ 95 / 2 := by
  have hv : (overlayStyle (8 / 10) ⟨"hi", "嗨", (0, 0, 500, 1000)⟩).isVertical
      = false := by
    show decide ((500 : ℚ) - 0 > ((1000 : ℚ) - 0) * (13 / 10)) = false
    exact decide_eq_false (by norm_num)
  have hl : (overlayStyle (8 / 10) ⟨"hi", "嗨", (0, 0, 500, 1000)⟩).textLen = 1 := by
    show jsTextLen "嗨" = 1
    decide
  refine ⟨by decide, ?_, by norm_num, by norm_num⟩
  simp only [fontSizeOf, hv, hl]
  norm_num

/-- C8 amended: for the image 1200×800 (aspect 1.5) and the single region
box (0, 0, 500, 1000) with translatedText "嗨" (length 1), the region is
classified non-vertical, the placement is top = 0%, left = 0%,
width = 100%, height = 50%, and the font size evaluates to
min(85% of box-height-unit, 95% of box-width-unit). -/
theorem c8_end_to_end :
    (overlayStyle (8 / 10) ⟨"hi", "嗨", (0, 0, 500, 1000)⟩).top = 0 ∧
    (overlayStyle (8 / 10) ⟨"hi", "嗨", (0, 0, 500, 1000)⟩).left = 0 ∧
    (overlayStyle (8 / 10) ⟨"hi", "嗨", (0, 0, 500, 1000)⟩).width = 100 ∧
    (overlayStyle (8 / 10) ⟨"hi", "嗨", (0, 0, 500, 1000)⟩).height = 50 ∧
    (overlayStyle (8 / 10) ⟨"hi", "嗨", (0, 0, 500, 1000)⟩).isVertical = false ∧
    (overlayStyle (8 / 10) ⟨"hi", "嗨", (0, 0, 500, 1000)⟩).textLen = 1 ∧
    (∀ cqw cqh : ℚ,
      fontSizeOf (overlayStyle (8 / 10) ⟨"hi", "嗨", (0, 0, 500, 1000)⟩) cqw cqh =
        min (85 * cqh) (95 * cqw)) ∧
    (renderImageContent (some ⟨1200, 800⟩) [⟨"hi", "嗨", (0, 0, 500, 1000)⟩]
        initialState PaneMode.translated).map RenderedPane.aspect = some (3 / 2) := by
  have hv : (overlayStyle (8 / 10) ⟨"hi", "嗨", (0, 0, 500, 1000)⟩).isVertical
      = false := by
    show decide ((500 : ℚ) - 0 > ((1000 : ℚ) - 0) * (13 / 10)) = false
    exact decide_eq_false (by norm_num)
  refine ⟨?_, ?_, ?_, ?_, hv, ?_, fun cqw cqh => ?_, ?_⟩
  · show (0 : ℚ) / 10 = 0
    norm_num
  · show (0 : ℚ) / 10 = 0
    norm_num
  · show ((1000 : ℚ) - 0) / 10 = 100
    norm_num
  · show ((500 : ℚ) - 0) / 10 = 50
    norm_num
  · show jsTextLen "嗨" = 1
    decide
  · have hl : (overlayStyle (8 / 10) ⟨"hi", "嗨", (0, 0, 500, 1000)⟩).textLen = 1 := by
      show jsTextLen "嗨" = 1
      decide
    simp only [fontSizeOf, hv, hl]
    norm_num
  · show some ((1200 : ℚ) / 800) = some (3 / 2)
    exact congrArg _ (by norm_num)

/-- C9 counterexample: with the event sequence set source A, set source B,
B's load completes with dimensions (200, 100), then A's stale load
completes with dimensions (100, 100), the final state has current source B
but stores A's dimensions: the stale completion is not ignored and
overwrites the newer image's dimension state. -/
theorem c9_stale_load_counterexample :
    (imgRun ⟨"", none⟩ [ImgEvent.setSource "A", ImgEvent.setSource "B",
        ImgEvent.loadComplete "B" 200 100,
        ImgEvent.loadComplete "A" 100 100]).currentSource = "B" ∧
    (imgRun ⟨"", none⟩ [ImgEvent.setSource "A", ImgEvent.setSource "B",
        ImgEvent.loadComplete "B" 200 100,
        ImgEvent.loadComplete "A" 100 100]).imageDims = some ⟨100, 100⟩ ∧
    (some (⟨100, 100⟩ : ImageDims) ≠ some (⟨200, 100⟩ : ImageDims)) := by
  decide

/-- C9 amended: the load-completion handler stores a completed load's
dimensions unconditionally, with no source-identity check, so whichever
load completes last determines the stored dimensions. -/
theorem c9_load_complete_unconditional (st : ImgLoadState) (src : String)
    (w h : ℚ) :
    imgStep st (ImgEvent.loadComplete src w h) =
      { st with imageDims := some ⟨w, h⟩ } :=
  rfl

/-- C10: wheel and stepper zoom change only the scale, leaving the pan
unchanged; a drag move changes only the pan, leaving the scale unchanged;
pointer down and pointer up change no field of the view transform; and a
pointer move while not dragging leaves the whole state unchanged. -/
theorem c10_frame_effects (st : SplitState) (d cx cy : ℚ) :
    ((step st (ViewerEvent.wheel d)).viewState.x = st.viewState.x ∧
      (step st (ViewerEvent.wheel d)).viewState.y = st.viewState.y) ∧
    ((step st ViewerEvent.zoomInButton).viewState.x = st.viewState.x ∧
      (step st ViewerEvent.zoomInButton).viewState.y = st.viewState.y) ∧
    ((step st ViewerEvent.zoomOutButton).viewState.x = st.viewState.x ∧
      (step st ViewerEvent.zoomOutButton).viewState.y = st.viewState.y) ∧
    (step { st with isDragging := true }
        (ViewerEvent.pointerMove cx cy)).viewState.scale = st.viewState.scale ∧
    (step st (ViewerEvent.pointerDown cx cy)).viewState = st.viewState ∧
    (step st ViewerEvent.pointerUp).viewState = st.viewState ∧
    step { st with isDragging := false } (ViewerEvent.pointerMove cx cy) =
      { st with isDragging := false } :=
  ⟨⟨rfl, rfl⟩, ⟨rfl, rfl⟩, ⟨rfl, rfl⟩, rfl, rfl, rfl, rfl⟩

end GeminiReact
